import Mathlib

/-!
Verification development for the LUNA `eptri` endpoint interfaces
(`luna/gateware/usb/usb2/interfaces/eptri.py`) and the streaming OUT
endpoint (`luna/gateware/usb/usb2/endpoints/stream.py`).

Each hardware component is embedded shallowly: the registered (`m.d.usb`)
state becomes a Lean structure, the per-tick combinational outputs become
pure functions of the state and the tick's inputs, and the synchronous
update becomes an explicit step function.  nMigen semantics followed here:
within one domain, a later conditional assignment overrides an earlier one
for the same signal; combinational signals that are never driven read as 0.
-/

namespace Luna

/-- Decoded token signals presented by the link layer each tick
(the `interface.tokenizer` fields consumed by the components).  Direction
and kind follow the data model: `isIn`/`isOut` reflect the token's
direction, `isSetup`/`isPing` its kind. -/
structure Token where
  endpoint : Nat
  isIn : Bool
  isOut : Bool
  isSetup : Bool
  isPing : Bool
  newToken : Bool
  readyForResponse : Bool
deriving Repr, DecidableEq

/-- Handshake outputs driven toward the link layer (`handshakes_out`). -/
structure Handshakes where
  ack : Bool
  nak : Bool
  stall : Bool
deriving Repr, DecidableEq

/-- One step of a `SyncFIFOBuffered` write: append if the FIFO has room
(`w_rdy`), otherwise drop the write. -/
def fifoWrite (depth : Nat) (f : List Nat) (x : Nat) : List Nat :=
  if f.length < depth then f ++ [x] else f

/-!
### Setup-Phase Capture (`SetupFIFOInterface`)
-/

/-- Registered state of `SetupFIFOInterface`: the 8-bit/depth-10
`SyncFIFOBuffered`, and the `epno` status register latched from the most
recent token. -/
structure SetupState where
  fifo : List Nat
  epno : Nat
deriving Repr, DecidableEq

/-- Per-tick inputs of `SetupFIFOInterface`: the decoded token, the receive
stream, the ready-for-response edge, and the CSR strobes. -/
structure SetupInput where
  token : Token
  rxValid : Bool
  rxNext : Bool
  rxPayload : Nat
  rxReadyForResponse : Bool
  dataRStb : Bool
  resetWStb : Bool
deriving Repr, DecidableEq

/-- Combinational handshake outputs of the setup component: ACK is driven
whenever the last token is SETUP and the link asserts ready-for-response;
`nak` and `stall` are never driven by this component and therefore read 0. -/
def setupHandshakes (i : SetupInput) : Handshakes :=
  { ack := i.token.isSetup && i.rxReadyForResponse
    nak := false
    stall := false }

/-- The setup FIFO's write enable: the last token is SETUP and a payload
byte is being presented. -/
def setupWriteEn (i : SetupInput) : Bool :=
  i.token.isSetup && i.rxValid && i.rxNext

/-- The `have` CSR: data is available in the setup FIFO. -/
def setupHave (s : SetupState) : Bool :=
  !s.fifo.isEmpty

/-- Synchronous update of `SetupFIFOInterface`.  The FIFO is wrapped in
`ResetInserter(new_setup)`, so a new SETUP token clears it (reset dominates
any same-tick write or read).  Note that the `reset` CSR strobe is *not*
connected to anything in `elaborate`, so `resetWStb` has no effect on the
state — this mirrors the source exactly. -/
def setupStep (s : SetupState) (i : SetupInput) : SetupState :=
  let newSetup := i.token.newToken && i.token.isSetup
  let fifo1 :=
    if newSetup then []
    else
      let f := if setupWriteEn i then fifoWrite 10 s.fifo (i.rxPayload % 256) else s.fifo
      if i.dataRStb then f.tail else f
  let epno1 := if i.token.newToken then i.token.endpoint % 16 else s.epno
  { fifo := fifo1, epno := epno1 }

end Luna

namespace Luna

/-- C1: for every SETUP token, when the link layer asserts
ready-for-response, the Setup-Phase Capture component responds ACK —
independently of the FIFO contents (the handshake does not read the state
at all) — and never NAK or STALL. -/
theorem setup_always_acks (i : SetupInput)
    (hsetup : i.token.isSetup = true) (hready : i.rxReadyForResponse = true) :
    (setupHandshakes i).ack = true ∧ (setupHandshakes i).nak = false ∧
    (setupHandshakes i).stall = false := by
  simp [setupHandshakes, hsetup, hready]

/-- Witness for `setup_always_acks`: a concrete SETUP token at
ready-for-response is ACK'd. -/
theorem setup_always_acks_witness :
    let i : SetupInput :=
      { token := { endpoint := 0, isIn := false, isOut := false, isSetup := true,
                   isPing := false, newToken := false, readyForResponse := false }
        rxValid := false, rxNext := false, rxPayload := 0
        rxReadyForResponse := true, dataRStb := false, resetWStb := false }
    (setupHandshakes i).ack = true ∧ (setupHandshakes i).nak = false ∧
    (setupHandshakes i).stall = false :=
  setup_always_acks _ rfl rfl

/-- State used to exhibit the disconnected setup `reset` CSR: one unread
byte sits in the setup FIFO. -/
def setupResetBugState : SetupState := { fifo := [18], epno := 0 }

/-- Input used to exhibit the disconnected setup `reset` CSR: the
controller strobes the reset register while no new token arrives. -/
def setupResetBugInput : SetupInput :=
  { token := { endpoint := 0, isIn := false, isOut := false, isSetup := false,
               isPing := false, newToken := false, readyForResponse := false }
    rxValid := false, rxNext := false, rxPayload := 0
    rxReadyForResponse := false, dataRStb := false, resetWStb := true }

/-- C8: a controller write to the setup `reset` CSR is supposed to clear
the SETUP FIFO (per the register's own description), but the strobe is not
connected in `elaborate`: with one unread byte buffered, strobing reset
leaves the state — FIFO contents and the `have` flag — entirely unchanged.
Only the automatic clear on a new SETUP token (second conjunct) works as
documented. -/
theorem setup_reset_csr_disconnected :
    setupStep setupResetBugState setupResetBugInput = setupResetBugState ∧
    setupHave (setupStep setupResetBugState setupResetBugInput) = true ∧
    (setupStep setupResetBugState
      { setupResetBugInput with
        resetWStb := false
        token := { setupResetBugInput.token with newToken := true, isSetup := true } }).fifo
      = [] := by
  decide

end Luna

namespace Luna

/-!
### IN Transaction Manager (`InFIFOInterface`)
-/

/-- FSM states of `InFIFOInterface.elaborate`. -/
inductive InFsm
  | idle
  | primed
  | sendZlp
  | sendData
deriving Repr, DecidableEq

/-- Registered state of `InFIFOInterface`: transmit FIFO, the tracked byte
count, the `epno` register, the 16-entry per-endpoint stall table, the
manual PID toggle register, the registered `tx.first` flag, and the FSM
state. -/
structure InState where
  fifo : List Nat
  bytesInFifo : Nat
  epno : Nat
  stallTable : List Bool
  pid : Bool
  txFirst : Bool
  fsm : InFsm
deriving Repr, DecidableEq

/-- Per-tick inputs of `InFIFOInterface`: the decoded token, the transmit
stream's `ready`, and the CSR write strobes/data. -/
structure InInput where
  token : Token
  txReady : Bool
  dataWStb : Bool
  dataWData : Nat
  epnoWStb : Bool
  epnoWData : Nat
  resetWStb : Bool
  stallWStb : Bool
  stallWData : Bool
  pidWStb : Bool
  pidWData : Bool
deriving Repr, DecidableEq

/-- Shorthand `new_in_token`: an IN token has reached ready-for-response. -/
def newInToken (i : InInput) : Bool :=
  i.token.isIn && i.token.readyForResponse

/-- Shorthand `endpoint_matches`: the token targets the registered `epno`. -/
def inEndpointMatches (s : InState) (i : InInput) : Bool :=
  i.token.endpoint == s.epno

/-- Shorthand `stalled`: the stall-table entry for the *token's* endpoint. -/
def inStalled (s : InState) (i : InInput) : Bool :=
  s.stallTable.getD i.token.endpoint false

/-- Combinational outputs of `InFIFOInterface`: handshakes, the transmit
stream, the FIFO read enable, and the `idle` status bit. -/
structure InOutputs where
  handshakes : Handshakes
  txValid : Bool
  txLast : Bool
  txPayload : Nat
  fifoREn : Bool
  idleFlag : Bool
deriving Repr, DecidableEq

/-- Combinational output function of `InFIFOInterface`, per FSM state.  In
IDLE an IN token gets STALL if the token's endpoint is stalled, else NAK;
in PRIMED a stalled endpoint gets STALL, a non-matching one NAK, while a
matching unstalled one gets no handshake (the FSM advances instead); the
SEND states drive the transmit stream. -/
def inOutputs (s : InState) (i : InInput) : InOutputs :=
  let noHs : Handshakes := { ack := false, nak := false, stall := false }
  match s.fsm with
  | .idle =>
      { handshakes :=
          { ack := false
            nak := newInToken i && !inStalled s i
            stall := newInToken i && inStalled s i }
        txValid := false, txLast := false, txPayload := 0, fifoREn := false
        idleFlag := true }
  | .primed =>
      { handshakes :=
          { ack := false
            nak := newInToken i && !inStalled s i && !inEndpointMatches s i
            stall := newInToken i && inStalled s i }
        txValid := false, txLast := false, txPayload := 0, fifoREn := false
        idleFlag := false }
  | .sendZlp =>
      { handshakes := noHs
        txValid := true, txLast := true, txPayload := 0, fifoREn := false
        idleFlag := false }
  | .sendData =>
      { handshakes := noHs
        txValid := true
        txLast := s.bytesInFifo == 1
        txPayload := s.fifo.headD 0
        fifoREn := i.txReady
        idleFlag := false }

/-- Synchronous update of `InFIFOInterface`.  Assignment order within the
tick follows the source: the stall-table write from the `stall` CSR (indexed
by the *current* `epno`) is overridden by the automatic clear on a new
SETUP token; the FIFO is reset by the `reset` CSR, else written on a `data`
CSR write and advanced while SEND_DATA streams with `tx.ready`. -/
def inStep (maxPacketSize : Nat) (s : InState) (i : InInput) : InState :=
  let out := inOutputs s i
  let wEn := i.dataWStb
  let rEn := out.fifoREn
  let increment := wEn && decide (s.fifo.length < maxPacketSize)
  let decrement := rEn && !s.fifo.isEmpty
  let bytes1 :=
    if i.resetWStb then 0
    else if increment && !decrement then s.bytesInFifo + 1
    else if decrement && !increment then s.bytesInFifo - 1
    else s.bytesInFifo
  let fifo1 :=
    if i.resetWStb then []
    else
      let f := if wEn then fifoWrite maxPacketSize s.fifo (i.dataWData % 256) else s.fifo
      if rEn then f.tail else f
  let epno1 := if i.epnoWStb then i.epnoWData % 16 else s.epno
  let st1 := if i.stallWStb then s.stallTable.set s.epno i.stallWData else s.stallTable
  let st2 :=
    if i.token.isSetup && i.token.newToken then st1.set i.token.endpoint false else st1
  let pid1 := if i.pidWStb then i.pidWData else s.pid
  let txFirst1 :=
    match s.fsm with
    | .primed =>
        if newInToken i && !inStalled s i && inEndpointMatches s i && !s.fifo.isEmpty
        then true else s.txFirst
    | .sendData => if i.txReady then false else s.txFirst
    | _ => s.txFirst
  let fsm1 :=
    match s.fsm with
    | .idle => if i.epnoWStb && !inStalled s i then .primed else .idle
    | .primed =>
        if newInToken i then
          if inStalled s i then .primed
          else if inEndpointMatches s i then
            if s.fifo.isEmpty then .sendZlp else .sendData
          else .primed
        else .primed
    | .sendZlp => .idle
    | .sendData => if (s.bytesInFifo == 1) && i.txReady then .idle else .sendData
  { fifo := fifo1, bytesInFifo := bytes1, epno := epno1, stallTable := st2
    pid := pid1, txFirst := txFirst1, fsm := fsm1 }

end Luna

namespace Luna

/-- C5: in both the IDLE and PRIMED states of the IN manager, an IN token
at ready-for-response whose endpoint's stall bit is set is answered STALL —
with no hypothesis on the FIFO, so even with data queued — and neither NAK
nor ACK nor a DATA/ZLP transmission is produced that tick. -/
theorem in_stall_precedence (mps : Nat) (s : InState) (i : InInput)
    (hfsm : s.fsm = InFsm.idle ∨ s.fsm = InFsm.primed)
    (htok : newInToken i = true) (hstall : inStalled s i = true) :
    (inOutputs s i).handshakes.stall = true ∧
    (inOutputs s i).handshakes.nak = false ∧
    (inOutputs s i).handshakes.ack = false ∧
    (inOutputs s i).txValid = false ∧
    (inStep mps s i).fsm = s.fsm := by
  rcases hfsm with h | h <;> simp [inOutputs, inStep, h, htok, hstall]

/-- State for the `in_stall_precedence` witness: PRIMED, with three bytes
queued on endpoint 2, whose stall bit is set. -/
def inStallState : InState :=
  { fifo := [1, 2, 3], bytesInFifo := 3, epno := 2
    stallTable := (List.replicate 16 false).set 2 true
    pid := false, txFirst := false, fsm := InFsm.primed }

/-- Input for the `in_stall_precedence` witness: an IN token to endpoint 2
at ready-for-response. -/
def inStallInput : InInput :=
  { token := { endpoint := 2, isIn := true, isOut := false, isSetup := false,
               isPing := false, newToken := false, readyForResponse := true }
    txReady := false, dataWStb := false, dataWData := 0
    epnoWStb := false, epnoWData := 0, resetWStb := false
    stallWStb := false, stallWData := false, pidWStb := false, pidWData := false }

/-- Witness for `in_stall_precedence`: with data queued and endpoint 2
stalled, the PRIMED IN manager answers STALL, not NAK or data. -/
theorem in_stall_precedence_witness :
    (inOutputs inStallState inStallInput).handshakes.stall = true ∧
    (inOutputs inStallState inStallInput).handshakes.nak = false ∧
    (inOutputs inStallState inStallInput).handshakes.ack = false ∧
    (inOutputs inStallState inStallInput).txValid = false ∧
    (inStep 64 inStallState inStallInput).fsm = inStallState.fsm :=
  in_stall_precedence 64 inStallState inStallInput (Or.inr rfl) (by decide) (by decide)

/-- Helper: in SEND_ZLP the transmit stream drives `valid` and `last` with
no FIFO read, independently of the tick's input. -/
theorem inOutputs_sendZlp (s : InState) (i : InInput) (h : s.fsm = InFsm.sendZlp) :
    (inOutputs s i).txValid = true ∧ (inOutputs s i).txLast = true ∧
    (inOutputs s i).fifoREn = false := by
  simp [inOutputs, h]

/-- Helper: SEND_ZLP returns to IDLE unconditionally. -/
theorem inStep_sendZlp_fsm (mps : Nat) (s : InState) (i : InInput)
    (h : s.fsm = InFsm.sendZlp) : (inStep mps s i).fsm = InFsm.idle := by
  simp [inStep, h]

/-- C6: if the IN manager is PRIMED with an empty FIFO and receives a
matching IN token on a non-stalled endpoint, it moves to SEND_ZLP; in the
next tick — whatever the input — it emits one transaction with `tx.valid`
and the end-of-packet marker `tx.last` set, consumes no FIFO byte (zero
payload bytes), and returns to IDLE unconditionally. -/
theorem in_zlp_generation (mps : Nat) (s : InState) (i i2 : InInput)
    (hfsm : s.fsm = InFsm.primed) (hempty : s.fifo = [])
    (htok : newInToken i = true) (hns : inStalled s i = false)
    (hm : inEndpointMatches s i = true) :
    (inStep mps s i).fsm = InFsm.sendZlp ∧
    (inOutputs (inStep mps s i) i2).txValid = true ∧
    (inOutputs (inStep mps s i) i2).txLast = true ∧
    (inOutputs (inStep mps s i) i2).fifoREn = false ∧
    (inStep mps (inStep mps s i) i2).fsm = InFsm.idle := by
  have h1 : (inStep mps s i).fsm = InFsm.sendZlp := by
    simp [inStep, hfsm, htok, hns, hm, hempty]
  obtain ⟨hv, hl, hr⟩ := inOutputs_sendZlp _ i2 h1
  exact ⟨h1, hv, hl, hr, inStep_sendZlp_fsm mps _ i2 h1⟩

/-- State for the `in_zlp_generation` witness: PRIMED on endpoint 1 with an
empty FIFO and no endpoint stalled. -/
def inZlpState : InState :=
  { fifo := [], bytesInFifo := 0, epno := 1
    stallTable := List.replicate 16 false
    pid := false, txFirst := false, fsm := InFsm.primed }

/-- Input for the `in_zlp_generation` witness: an IN token to endpoint 1 at
ready-for-response. -/
def inZlpInput : InInput :=
  { token := { endpoint := 1, isIn := true, isOut := false, isSetup := false,
               isPing := false, newToken := false, readyForResponse := true }
    txReady := false, dataWStb := false, dataWData := 0
    epnoWStb := false, epnoWData := 0, resetWStb := false
    stallWStb := false, stallWData := false, pidWStb := false, pidWData := false }

/-- Second-tick input for the `in_zlp_generation` witness: an idle bus. -/
def inZlpInput2 : InInput :=
  { token := { endpoint := 0, isIn := false, isOut := false, isSetup := false,
               isPing := false, newToken := false, readyForResponse := false }
    txReady := false, dataWStb := false, dataWData := 0
    epnoWStb := false, epnoWData := 0, resetWStb := false
    stallWStb := false, stallWData := false, pidWStb := false, pidWData := false }

/-- Witness for `in_zlp_generation` at a concrete ZLP scenario. -/
theorem in_zlp_generation_witness :
    (inStep 64 inZlpState inZlpInput).fsm = InFsm.sendZlp ∧
    (inOutputs (inStep 64 inZlpState inZlpInput) inZlpInput2).txValid = true ∧
    (inOutputs (inStep 64 inZlpState inZlpInput) inZlpInput2).txLast = true ∧
    (inOutputs (inStep 64 inZlpState inZlpInput) inZlpInput2).fifoREn = false ∧
    (inStep 64 (inStep 64 inZlpState inZlpInput) inZlpInput2).fsm = InFsm.idle :=
  in_zlp_generation 64 inZlpState inZlpInput inZlpInput2 rfl rfl (by decide) (by decide)
    (by decide)

/-- State for the C9 counterexample: IDLE, endpoint 3 stalled, the last
seen token targeted endpoint 5 (not stalled). -/
def inPrimeCexState : InState :=
  { fifo := [], bytesInFifo := 0, epno := 0
    stallTable := (List.replicate 16 false).set 3 true
    pid := false, txFirst := false, fsm := InFsm.idle }

/-- Input for the C9 counterexample: the controller primes endpoint 3
(which is stalled) while the most recent token's endpoint is 5. -/
def inPrimeCexInput : InInput :=
  { token := { endpoint := 5, isIn := false, isOut := false, isSetup := false,
               isPing := false, newToken := false, readyForResponse := false }
    txReady := false, dataWStb := false, dataWData := 0
    epnoWStb := true, epnoWData := 3, resetWStb := false
    stallWStb := false, stallWData := false, pidWStb := false, pidWData := false }

/-- C9 counterexample: priming endpoint 3 — whose stall bit is set — still
enters PRIMED, because the guard checks the stall bit of the most recent
*token's* endpoint (5, not stalled), not of the endpoint being primed. -/
theorem in_prime_stalled_cex :
    (inStep 64 inPrimeCexState inPrimeCexInput).fsm = InFsm.primed ∧
    inPrimeCexState.stallTable.getD (inPrimeCexInput.epnoWData % 16) false = true := by
  decide

/-- C9 amended: in IDLE, a controller prime (write to the endpoint-number
register) transitions to PRIMED exactly when the stall bit of the most
recent token's endpoint — not of the endpoint number being written — is
clear. -/
theorem in_prime_checks_token_stall (mps : Nat) (s : InState) (i : InInput)
    (hfsm : s.fsm = InFsm.idle) (hw : i.epnoWStb = true) :
    ((inStep mps s i).fsm = InFsm.primed ↔ inStalled s i = false) := by
  cases h : inStalled s i <;> simp [inStep, hfsm, hw, h]

/-- State for the `in_prime_checks_token_stall` witness: IDLE, nothing
stalled. -/
def inPrimeWitnessState : InState :=
  { fifo := [], bytesInFifo := 0, epno := 0
    stallTable := List.replicate 16 false
    pid := false, txFirst := false, fsm := InFsm.idle }

/-- Input for the `in_prime_checks_token_stall` witness: the controller
primes endpoint 2 on an otherwise idle bus. -/
def inPrimeWitnessInput : InInput :=
  { token := { endpoint := 0, isIn := false, isOut := false, isSetup := false,
               isPing := false, newToken := false, readyForResponse := false }
    txReady := false, dataWStb := false, dataWData := 0
    epnoWStb := true, epnoWData := 2, resetWStb := false
    stallWStb := false, stallWData := false, pidWStb := false, pidWData := false }

/-- Witness for `in_prime_checks_token_stall` at a concrete prime with no
endpoint stalled. -/
theorem in_prime_checks_token_stall_witness :
    ((inStep 64 inPrimeWitnessState inPrimeWitnessInput).fsm = InFsm.primed ↔
      inStalled inPrimeWitnessState inPrimeWitnessInput = false) :=
  in_prime_checks_token_stall 64 inPrimeWitnessState inPrimeWitnessInput rfl rfl

end Luna

namespace Luna

/-!
### OUT Transaction Manager (`OutFIFOInterface`)
-/

/-- Registered state of `OutFIFOInterface`: receive FIFO (depth 10), the
`epno` selection register, the one-shot `enable` (arm) flag, and the
16-entry per-endpoint stall table. -/
structure OutState where
  fifo : List Nat
  epno : Nat
  enable : Bool
  stallTable : List Bool
deriving Repr, DecidableEq

/-- Per-tick inputs of `OutFIFOInterface`: the decoded token, the receive
stream, the ready-for-response edge, and the CSR strobes/data. -/
structure OutInput where
  token : Token
  rxValid : Bool
  rxNext : Bool
  rxPayload : Nat
  rxReadyForResponse : Bool
  dataRStb : Bool
  resetWStb : Bool
  epnoWStb : Bool
  epnoWData : Nat
  enableWStb : Bool
  enableWData : Bool
  stallWStb : Bool
  stallWData : Bool
deriving Repr, DecidableEq

/-- Shorthand `stalled`: an OUT token whose endpoint's stall bit is set
(checked against the token's endpoint, not the selected one). -/
def outStalled (s : OutState) (i : OutInput) : Bool :=
  i.token.isOut && s.stallTable.getD i.token.endpoint false

/-- Shorthand `endpoint_matches`: the token targets the selected `epno`. -/
def outEndpointMatches (s : OutState) (i : OutInput) : Bool :=
  i.token.endpoint == s.epno

/-- Shorthand `allow_receive`: the selected endpoint matches, reception is
armed, the token is an OUT, and the endpoint is not stalled. -/
def allowReceive (s : OutState) (i : OutInput) : Bool :=
  outEndpointMatches s i && s.enable && i.token.isOut && !outStalled s i

/-- Shorthand `nak_receives`: an OUT token we neither accept nor STALL. -/
def nakReceives (s : OutState) (i : OutInput) : Bool :=
  i.token.isOut && !allowReceive s i && !outStalled s i

/-- Combinational handshake outputs of `OutFIFOInterface`, all qualified by
the ready-for-response edge. -/
def outHandshakes (s : OutState) (i : OutInput) : Handshakes :=
  { ack := allowReceive s i && i.rxReadyForResponse
    nak := nakReceives s i && i.rxReadyForResponse
    stall := outStalled s i && i.rxReadyForResponse }

/-- The OUT FIFO's write enable: an allowed receive with a payload byte
being presented. -/
def outWriteEn (s : OutState) (i : OutInput) : Bool :=
  allowReceive s i && i.rxValid && i.rxNext

/-- Synchronous update of `OutFIFOInterface`.  The `enable` register takes
the CSR write first, but the ACK-driven clear is a later assignment in the
same domain, so it overrides a same-tick write.  The stall-table write from
the `stall` CSR (indexed by the current `epno`) is overridden by the
automatic clear on a new SETUP token. -/
def outStep (s : OutState) (i : OutInput) : OutState :=
  let epno1 := if i.epnoWStb then i.epnoWData % 16 else s.epno
  let en0 := if i.enableWStb then i.enableWData else s.enable
  let en1 := if (outHandshakes s i).ack then false else en0
  let st1 := if i.stallWStb then s.stallTable.set s.epno i.stallWData else s.stallTable
  let st2 :=
    if i.token.isSetup && i.token.newToken then st1.set i.token.endpoint false else st1
  let fifo1 :=
    if i.resetWStb then []
    else
      let f := if outWriteEn s i then fifoWrite 10 s.fifo (i.rxPayload % 256) else s.fifo
      if i.dataRStb then f.tail else f
  { fifo := fifo1, epno := epno1, enable := en1, stallTable := st2 }

end Luna

namespace Luna

/-- C4: the armed flag is one-shot.  In a tick where an accepted OUT packet
is ACK'd and the controller does not write the enable register, the enable
flag is cleared in the next state; a second OUT token at ready-for-response
to the matching, non-stalled endpoint then draws NAK — not ACK — and
buffers nothing. -/
theorem out_arm_one_shot (s : OutState) (i1 i2 : OutInput)
    (hack : (outHandshakes s i1).ack = true)
    (hnoarm : i1.enableWStb = false)
    (hout2 : i2.token.isOut = true)
    (hready2 : i2.rxReadyForResponse = true)
    (hmatch2 : outEndpointMatches (outStep s i1) i2 = true)
    (hns2 : outStalled (outStep s i1) i2 = false) :
    (outStep s i1).enable = false ∧
    (outHandshakes (outStep s i1) i2).nak = true ∧
    (outHandshakes (outStep s i1) i2).ack = false ∧
    outWriteEn (outStep s i1) i2 = false := by
  have hen : (outStep s i1).enable = false := by
    simp [outStep, hack, hnoarm]
  have hallow : allowReceive (outStep s i1) i2 = false := by
    simp [allowReceive, hen]
  refine ⟨hen, ?_, ?_, ?_⟩
  · simp [outHandshakes, nakReceives, hallow, hout2, hready2, hns2]
  · simp [outHandshakes, hallow]
  · simp [outWriteEn, hallow]

/-- State for the `out_arm_one_shot` witness: armed for endpoint 1, no
endpoint stalled, empty FIFO. -/
def outArmState : OutState :=
  { fifo := [], epno := 1, enable := true
    stallTable := List.replicate 16 false }

/-- First input for the `out_arm_one_shot` witness: an OUT token to
endpoint 1 reaching ready-for-response (the accepted packet's ACK tick). -/
def outArmInput1 : OutInput :=
  { token := { endpoint := 1, isIn := false, isOut := true, isSetup := false,
               isPing := false, newToken := false, readyForResponse := false }
    rxValid := false, rxNext := false, rxPayload := 0
    rxReadyForResponse := true, dataRStb := false, resetWStb := false
    epnoWStb := false, epnoWData := 0, enableWStb := false, enableWData := false
    stallWStb := false, stallWData := false }

/-- Second input for the `out_arm_one_shot` witness: another OUT token to
endpoint 1 at ready-for-response, before any re-arm. -/
def outArmInput2 : OutInput :=
  { outArmInput1 with rxValid := true, rxNext := true, rxPayload := 7 }

/-- Witness for `out_arm_one_shot` at a concrete back-to-back OUT pair. -/
theorem out_arm_one_shot_witness :
    (outStep outArmState outArmInput1).enable = false ∧
    (outHandshakes (outStep outArmState outArmInput1) outArmInput2).nak = true ∧
    (outHandshakes (outStep outArmState outArmInput1) outArmInput2).ack = false ∧
    outWriteEn (outStep outArmState outArmInput1) outArmInput2 = false :=
  out_arm_one_shot outArmState outArmInput1 outArmInput2 (by decide) rfl rfl rfl
    (by decide) (by decide)

/-- C10: if the controller writes '1' to the enable register in the same
tick in which an ACK is issued for a received packet, the ACK-driven clear
overrides the write: the armed flag is 0 in the following state. -/
theorem out_ack_clear_overrides_enable_write (s : OutState) (i : OutInput)
    (hack : (outHandshakes s i).ack = true)
    (hw : i.enableWStb = true) (hd : i.enableWData = true) :
    (outStep s i).enable = false := by
  simp [outStep, hack]

/-- Input for the `out_ack_clear_overrides_enable_write` witness: the ACK
tick of an accepted packet on endpoint 1, with a simultaneous controller
write of '1' to enable. -/
def outAckWriteInput : OutInput :=
  { outArmInput1 with enableWStb := true, enableWData := true }

/-- Witness for `out_ack_clear_overrides_enable_write` at a concrete
simultaneous ACK and enable write. -/
theorem out_ack_clear_overrides_enable_write_witness :
    (outStep outArmState outAckWriteInput).enable = false :=
  out_ack_clear_overrides_enable_write outArmState outAckWriteInput (by decide) rfl rfl

end Luna

namespace Luna

/-!
### Streaming OUT endpoint (`USBStreamOutEndpoint`)

The endpoint instantiates two submodules that are outside this repository
snapshot: `USBOutStreamBoundaryDetector` (whose outputs `first`, `last`,
`complete_out`, `invalid_out` we treat as per-tick inputs) and
`TransactionalizedFIFO` (modelled below from the spec).
-/

/-- A 10-bit element of the receive FIFO: 8 payload bits plus the `last`
and `first` flags, as packed by `fifo.write_data[0:8]`, `[8]`, `[9]`. -/
structure StreamElem where
  payload : Nat
  last : Bool
  first : Bool
deriving Repr, DecidableEq

/-- Modelled from the spec: the `TransactionalizedFIFO` of `luna.gateware.memory`
is not part of this source snapshot; per spec §4.1 it is a fixed-capacity
queue where writes append to a provisional run, `commit` makes the run
visible to readers in order, `discard` rolls it back leaving reader-visible
contents unchanged, and reads pop the oldest visible element. -/
structure TransFifo where
  visible : List StreamElem
  pending : List StreamElem
deriving Repr, DecidableEq

/-- Total occupancy of the transactional FIFO, visible plus provisional. -/
def TransFifo.count (f : TransFifo) : Nat :=
  f.visible.length + f.pending.length

/-- Modelled from the spec: `space_available` of the transactional FIFO. -/
def TransFifo.spaceAvailable (depth : Nat) (f : TransFifo) : Nat :=
  depth - f.count

/-- Modelled from the spec: a write appends to the provisional run if the
FIFO is not full, and is ignored otherwise. -/
def TransFifo.write (depth : Nat) (f : TransFifo) (x : StreamElem) : TransFifo :=
  if f.count < depth then { f with pending := f.pending ++ [x] } else f

/-- Modelled from the spec: `commit` makes the provisional run visible to
readers, in order. -/
def TransFifo.commit (f : TransFifo) : TransFifo :=
  { visible := f.visible ++ f.pending, pending := [] }

/-- Modelled from the spec: `discard` rolls back the provisional run,
reader-visible contents unchanged. -/
def TransFifo.discard (f : TransFifo) : TransFifo :=
  { f with pending := [] }

/-- Modelled from the spec: reading advances past the oldest visible
element (no-op when empty). -/
def TransFifo.readAdvance (f : TransFifo) : TransFifo :=
  { f with visible := f.visible.tail }

/-- Modelled from the spec: the FIFO is empty for the reader when no
committed element is visible. -/
def TransFifo.isEmpty (f : TransFifo) : Bool :=
  f.visible.isEmpty

/-- Modelled from the spec: the reader-facing data port shows the oldest
visible element. -/
def TransFifo.readData (f : TransFifo) : StreamElem :=
  f.visible.headD { payload := 0, last := false, first := false }

/-- Elaboration-time parameters of `USBStreamOutEndpoint`. -/
structure OutEpConfig where
  endpointNumber : Nat
  maxPacketSize : Nat
  bufferSize : Nat
deriving Repr, DecidableEq

/-- Registered state of `USBStreamOutEndpoint`: the transactional receive
FIFO, the expected data toggle, and the `is_first_byte` tracker. -/
structure OutEpState where
  fifo : TransFifo
  expectedDataToggle : Bool
  isFirstByte : Bool
deriving Repr, DecidableEq

/-- Per-tick inputs of `USBStreamOutEndpoint`: the decoded token, the
ready-for-response edge, the received data-toggle, the processed receive
stream with the boundary detector's `first`/`last`/`complete_out`/
`invalid_out` outputs, and the consumer's `stream.ready`. -/
structure OutEpInput where
  token : Token
  rxReadyForResponse : Bool
  rxPidToggle : Bool
  rxValid : Bool
  rxNext : Bool
  rxPayload : Nat
  rxFirst : Bool
  rxLast : Bool
  completeOut : Bool
  invalidOut : Bool
  streamReady : Bool
deriving Repr, DecidableEq

/-- Conditional `endpoint_number_matches`. -/
def epMatches (c : OutEpConfig) (i : OutEpInput) : Bool :=
  i.token.endpoint == c.endpointNumber

/-- Conditional `targeting_endpoint`: the matching token is an OUT. -/
def targetingEndpoint (c : OutEpConfig) (i : OutEpInput) : Bool :=
  epMatches c i && i.token.isOut

/-- Conditional `expected_pid_match`: the received toggle equals the
expected one. -/
def expectedPidMatch (s : OutEpState) (i : OutEpInput) : Bool :=
  i.rxPidToggle == s.expectedDataToggle

/-- Conditional `sufficient_space`: at least one max-size packet fits. -/
def sufficientSpace (c : OutEpConfig) (s : OutEpState) : Bool :=
  decide (c.maxPacketSize ≤ s.fifo.spaceAvailable c.bufferSize)

/-- Conditional `ping_response_requested`. -/
def pingResponseRequested (c : OutEpConfig) (i : OutEpInput) : Bool :=
  epMatches c i && i.token.isPing && i.token.readyForResponse

/-- Conditional `data_response_requested`. -/
def dataResponseRequested (c : OutEpConfig) (i : OutEpInput) : Bool :=
  targetingEndpoint c i && i.token.isOut && i.rxReadyForResponse

/-- Conditional `okay_to_receive`. -/
def okayToReceive (c : OutEpConfig) (s : OutEpState) (i : OutEpInput) : Bool :=
  targetingEndpoint c i && sufficientSpace c s && expectedPidMatch s i

/-- Conditional `should_skip`: the targeted packet carries the wrong
toggle. -/
def shouldSkip (c : OutEpConfig) (s : OutEpState) (i : OutEpInput) : Bool :=
  targetingEndpoint c i && !expectedPidMatch s i

/-- The receive FIFO's write enable. -/
def streamWriteEn (c : OutEpConfig) (s : OutEpState) (i : OutEpInput) : Bool :=
  okayToReceive c s i && i.rxNext && i.rxValid

/-- The receive FIFO's commit strobe: the targeted packet finished with a
valid CRC. -/
def streamWriteCommit (c : OutEpConfig) (i : OutEpInput) : Bool :=
  targetingEndpoint c i && i.completeOut

/-- The receive FIFO's discard strobe: the targeted packet's CRC failed. -/
def streamWriteDiscard (c : OutEpConfig) (i : OutEpInput) : Bool :=
  targetingEndpoint c i && i.invalidOut

/-- The streaming OUT endpoint's ACK: a correctly received packet, a PING
with room available, or a packet skipped for a PID-sequence mismatch. -/
def streamAck (c : OutEpConfig) (s : OutEpState) (i : OutEpInput) : Bool :=
  (dataResponseRequested c i && okayToReceive c s i) ||
  (pingResponseRequested c i && okayToReceive c s i) ||
  (dataResponseRequested c i && shouldSkip c s i)

/-- The streaming OUT endpoint's NAK: a packet or PING we would accept but
cannot. -/
def streamNak (c : OutEpConfig) (s : OutEpState) (i : OutEpInput) : Bool :=
  (dataResponseRequested c i && !okayToReceive c s i && !shouldSkip c s i) ||
  (pingResponseRequested c i && !okayToReceive c s i)

/-- The streaming OUT endpoint never drives `handshakes_out.stall`; the
undriven combinational signal reads 0. -/
def streamStallOut : Bool := false

/-- Synchronous update of `USBStreamOutEndpoint`: the FIFO takes the write
(into the provisional run), then the CRC-gated commit/discard, then the
consumer's read advance; the expected toggle flips exactly on an accepted
(matching-toggle) data reception; `is_first_byte` follows the consumed
element's `last` flag. -/
def outEpStep (c : OutEpConfig) (s : OutEpState) (i : OutEpInput) : OutEpState :=
  let f1 :=
    if streamWriteEn c s i then
      s.fifo.write c.bufferSize
        { payload := i.rxPayload % 256, last := i.rxLast, first := i.rxFirst }
    else s.fifo
  let f2 := if streamWriteCommit c i then f1.commit else f1
  let f3 := if streamWriteDiscard c i then f2.discard else f2
  let f4 := if i.streamReady then f3.readAdvance else f3
  let tog :=
    if dataResponseRequested c i && okayToReceive c s i
    then !s.expectedDataToggle else s.expectedDataToggle
  let fb :=
    if !s.fifo.isEmpty && i.streamReady then s.fifo.readData.last else s.isFirstByte
  { fifo := f4, expectedDataToggle := tog, isFirstByte := fb }

/-- Repeated synchronous update over a list of tick inputs. -/
def outEpRun (c : OutEpConfig) (s : OutEpState) (is : List OutEpInput) : OutEpState :=
  is.foldl (outEpStep c) s

end Luna

namespace Luna

/-- Writes to the transactional FIFO never change the reader-visible
contents. -/
theorem TransFifo.write_visible (d : Nat) (f : TransFifo) (x : StreamElem) :
    (f.write d x).visible = f.visible := by
  unfold TransFifo.write
  split <;> rfl

/-- Writes to the transactional FIFO only append to the provisional run. -/
theorem TransFifo.write_pending (d : Nat) (f : TransFifo) (x : StreamElem) :
    (f.write d x).pending = f.pending ∨ (f.write d x).pending = f.pending ++ [x] := by
  unfold TransFifo.write
  split
  · exact Or.inr rfl
  · exact Or.inl rfl

/-- A mid-packet tick of the streaming OUT endpoint — no CRC completion,
no CRC failure, no consumer read — leaves the reader-visible FIFO contents
untouched: bytes land only in the provisional run. -/
theorem outEpStep_visible (c : OutEpConfig) (s : OutEpState) (t : OutEpInput)
    (h1 : t.completeOut = false) (h2 : t.invalidOut = false)
    (h3 : t.streamReady = false) :
    (outEpStep c s t).fifo.visible = s.fifo.visible := by
  simp [outEpStep, streamWriteCommit, streamWriteDiscard, h1, h2, h3,
    apply_ite TransFifo.visible, TransFifo.write_visible]

/-- A mid-packet run of ticks of the streaming OUT endpoint leaves the
reader-visible FIFO contents untouched. -/
theorem outEpRun_visible (c : OutEpConfig) (mid : List OutEpInput) :
    ∀ s : OutEpState,
      (∀ t ∈ mid, t.completeOut = false ∧ t.invalidOut = false ∧ t.streamReady = false) →
      (outEpRun c s mid).fifo.visible = s.fifo.visible := by
  induction mid with
  | nil => intro s _; rfl
  | cons t ts ih =>
    intro s h
    obtain ⟨h1, h2, h3⟩ := h t (List.mem_cons_self t ts)
    have hts := ih (outEpStep c s t) (fun u hu => h u (List.mem_cons_of_mem t hu))
    calc (outEpRun c s (t :: ts)).fifo.visible
        = (outEpRun c (outEpStep c s t) ts).fifo.visible := rfl
      _ = (outEpStep c s t).fifo.visible := hts
      _ = s.fifo.visible := outEpStep_visible c s t h1 h2 h3

end Luna

namespace Luna

/-- C2: an OUT data token to the selected endpoint whose data toggle
differs from the expected toggle is treated as a retransmitted duplicate:
the response is ACK (not NAK), the FIFO write enable stays low so no byte
is buffered, and the expected data toggle is unchanged after the tick. -/
theorem stream_toggle_mismatch_reack (c : OutEpConfig) (s : OutEpState) (i : OutEpInput)
    (hm : epMatches c i = true) (hout : i.token.isOut = true)
    (hping : i.token.isPing = false)
    (hr : i.rxReadyForResponse = true)
    (hmm : expectedPidMatch s i = false) :
    streamAck c s i = true ∧ streamNak c s i = false ∧
    streamWriteEn c s i = false ∧
    (outEpStep c s i).expectedDataToggle = s.expectedDataToggle := by
  have hok : okayToReceive c s i = false := by
    simp [okayToReceive, hmm]
  have hskip : shouldSkip c s i = true := by
    simp [shouldSkip, targetingEndpoint, hm, hout, hmm]
  have hdrr : dataResponseRequested c i = true := by
    simp [dataResponseRequested, targetingEndpoint, hm, hout, hr]
  have hprr : pingResponseRequested c i = false := by
    simp [pingResponseRequested, hping]
  refine ⟨?_, ?_, ?_, ?_⟩
  · simp [streamAck, hdrr, hskip]
  · simp [streamNak, hskip, hprr]
  · simp [streamWriteEn, hok]
  · simp [outEpStep, hok]

/-- Configuration for the streaming-endpoint witnesses: endpoint 1,
max packet size 4, buffer of 4 elements. -/
def streamCfg : OutEpConfig :=
  { endpointNumber := 1, maxPacketSize := 4, bufferSize := 4 }

/-- State for the `stream_toggle_mismatch_reack` witness: empty FIFO,
expected toggle 0. -/
def streamTogState : OutEpState :=
  { fifo := { visible := [], pending := [] }
    expectedDataToggle := false, isFirstByte := true }

/-- Input for the `stream_toggle_mismatch_reack` witness: an OUT data
token to endpoint 1 at ready-for-response carrying toggle 1 against an
expected toggle of 0. -/
def streamTogInput : OutEpInput :=
  { token := { endpoint := 1, isIn := false, isOut := true, isSetup := false,
               isPing := false, newToken := false, readyForResponse := false }
    rxReadyForResponse := true, rxPidToggle := true
    rxValid := false, rxNext := false, rxPayload := 0
    rxFirst := false, rxLast := false, completeOut := false, invalidOut := false
    streamReady := false }

/-- Witness for `stream_toggle_mismatch_reack` at the concrete duplicate
packet above. -/
theorem stream_toggle_mismatch_reack_witness :
    streamAck streamCfg streamTogState streamTogInput = true ∧
    streamNak streamCfg streamTogState streamTogInput = false ∧
    streamWriteEn streamCfg streamTogState streamTogInput = false ∧
    (outEpStep streamCfg streamTogState streamTogInput).expectedDataToggle
      = streamTogState.expectedDataToggle :=
  stream_toggle_mismatch_reack streamCfg streamTogState streamTogInput
    (by decide) rfl rfl rfl (by decide)

/-- State for the C7 counterexample: one committed element occupies the
4-deep buffer, so only 3 spaces remain — less than the max packet size of
4 — and the expected toggle is 0. -/
def streamCexState : OutEpState :=
  { fifo := { visible := [{ payload := 5, last := true, first := true }], pending := [] }
    expectedDataToggle := false, isFirstByte := true }

/-- C7 counterexample: an OUT data token to the selected endpoint with
insufficient FIFO space (3 < 4) but a mismatched toggle is answered ACK,
not the NAK the claim requires for every insufficient-space token. -/
theorem stream_insufficient_space_cex :
    TransFifo.spaceAvailable streamCfg.bufferSize streamCexState.fifo
        < streamCfg.maxPacketSize ∧
    streamAck streamCfg streamCexState streamTogInput = true ∧
    streamNak streamCfg streamCexState streamTogInput = false := by
  decide

/-- C7 amended: with less than one max-packet-size of free space, a PING
to the selected endpoint, and an OUT data token to it whose toggle matches
the expected toggle, are answered NAK; an OUT data token with a mismatched
toggle is ACK'd (duplicate skip) even without space; and the adapter never
drives STALL. -/
theorem stream_insufficient_space_nak (c : OutEpConfig) (s : OutEpState) (i : OutEpInput)
    (hspace : sufficientSpace c s = false)
    (hreq : (pingResponseRequested c i = true ∧ dataResponseRequested c i = false) ∨
            (dataResponseRequested c i = true ∧ expectedPidMatch s i = true)) :
    streamNak c s i = true ∧ streamAck c s i = false ∧ streamStallOut = false := by
  have hok : okayToReceive c s i = false := by
    simp [okayToReceive, hspace]
  rcases hreq with ⟨hp, hd⟩ | ⟨hd, hm⟩
  · exact ⟨by simp [streamNak, hok, hp], by simp [streamAck, hok, hd], rfl⟩
  · have hskip : shouldSkip c s i = false := by
      simp [shouldSkip, hm]
    exact ⟨by simp [streamNak, hok, hd, hskip], by simp [streamAck, hok, hskip], rfl⟩

/-- Input for the `stream_insufficient_space_nak` witness: a PING to
endpoint 1 at its response point, with no data phase in flight. -/
def streamPingInput : OutEpInput :=
  { token := { endpoint := 1, isIn := false, isOut := true, isSetup := false,
               isPing := true, newToken := false, readyForResponse := true }
    rxReadyForResponse := false, rxPidToggle := false
    rxValid := false, rxNext := false, rxPayload := 0
    rxFirst := false, rxLast := false, completeOut := false, invalidOut := false
    streamReady := false }

/-- Witness for `stream_insufficient_space_nak`: the concrete PING above,
against the 3-of-4 occupied buffer, draws NAK and not ACK. -/
theorem stream_insufficient_space_nak_witness :
    streamNak streamCfg streamCexState streamPingInput = true ∧
    streamAck streamCfg streamCexState streamPingInput = false ∧
    streamStallOut = false :=
  stream_insufficient_space_nak streamCfg streamCexState streamPingInput
    (by decide) (Or.inl (by decide))

end Luna

namespace Luna

/-- C3: for the streaming OUT endpoint, the in-flight write run of the
transactional receive FIFO is committed exactly on the CRC-valid completion
strobe for the targeted endpoint and discarded on the CRC-invalid strobe;
over a whole packet — mid-packet ticks carry neither strobe and the
consumer is not reading — the reader-visible contents never change, on a
CRC failure they end identical to the pre-packet contents (so the reader
port, which serves only visible elements, never exposes a byte of the
failed packet), and on a CRC-valid completion they end as the pre-packet
contents followed by the buffered run, in order. -/
theorem stream_crc_commit_discard (c : OutEpConfig) (s : OutEpState)
    (mid : List OutEpInput) (fin1 : OutEpInput)
    (hmid : ∀ t ∈ mid,
      t.completeOut = false ∧ t.invalidOut = false ∧ t.streamReady = false)
    (hfv : fin1.rxValid = false) (hfr : fin1.streamReady = false) :
    streamWriteCommit c fin1 = (targetingEndpoint c fin1 && fin1.completeOut) ∧
    streamWriteDiscard c fin1 = (targetingEndpoint c fin1 && fin1.invalidOut) ∧
    (outEpRun c s mid).fifo.visible = s.fifo.visible ∧
    (streamWriteDiscard c fin1 = true → streamWriteCommit c fin1 = false →
      (outEpStep c (outEpRun c s mid) fin1).fifo.visible = s.fifo.visible ∧
      (outEpStep c (outEpRun c s mid) fin1).fifo.pending = [] ∧
      (outEpStep c (outEpRun c s mid) fin1).fifo.readData = s.fifo.readData ∧
      (outEpStep c (outEpRun c s mid) fin1).fifo.isEmpty = s.fifo.isEmpty) ∧
    (streamWriteCommit c fin1 = true → streamWriteDiscard c fin1 = false →
      (outEpStep c (outEpRun c s mid) fin1).fifo.visible
        = s.fifo.visible ++ (outEpRun c s mid).fifo.pending) := by
  have hrun : (outEpRun c s mid).fifo.visible = s.fifo.visible :=
    outEpRun_visible c mid s hmid
  have hwEn : streamWriteEn c (outEpRun c s mid) fin1 = false := by
    simp [streamWriteEn, hfv]
  refine ⟨rfl, rfl, hrun, ?_, ?_⟩
  · intro hd hc
    have hv : (outEpStep c (outEpRun c s mid) fin1).fifo
        = ((outEpRun c s mid).fifo).discard := by
      simp [outEpStep, hwEn, hd, hc, hfr]
    refine ⟨?_, ?_, ?_, ?_⟩ <;>
      simp [hv, TransFifo.discard, TransFifo.readData, TransFifo.isEmpty, hrun]
  · intro hc hd
    have hv : (outEpStep c (outEpRun c s mid) fin1).fifo
        = ((outEpRun c s mid).fifo).commit := by
      simp [outEpStep, hwEn, hd, hc, hfr]
    simp [hv, TransFifo.commit, hrun]

/-- Mid-packet inputs for the `stream_crc_commit_discard` witness: two
payload bytes of an OUT packet to endpoint 1 with the expected toggle. -/
def streamMidInputs : List OutEpInput :=
  [{ token := { endpoint := 1, isIn := false, isOut := true, isSetup := false,
                isPing := false, newToken := false, readyForResponse := false }
     rxReadyForResponse := false, rxPidToggle := false
     rxValid := true, rxNext := true, rxPayload := 33
     rxFirst := true, rxLast := false, completeOut := false, invalidOut := false
     streamReady := false },
   { token := { endpoint := 1, isIn := false, isOut := true, isSetup := false,
                isPing := false, newToken := false, readyForResponse := false }
     rxReadyForResponse := false, rxPidToggle := false
     rxValid := true, rxNext := true, rxPayload := 44
     rxFirst := false, rxLast := true, completeOut := false, invalidOut := false
     streamReady := false }]

/-- Packet-end input for the `stream_crc_commit_discard` witness: the CRC
of the packet to endpoint 1 failed. -/
def streamInvalidEnd : OutEpInput :=
  { token := { endpoint := 1, isIn := false, isOut := true, isSetup := false,
               isPing := false, newToken := false, readyForResponse := false }
    rxReadyForResponse := false, rxPidToggle := false
    rxValid := false, rxNext := false, rxPayload := 0
    rxFirst := false, rxLast := false, completeOut := false, invalidOut := true
    streamReady := false }

/-- Witness for `stream_crc_commit_discard`: after buffering two bytes and
then seeing the CRC-invalid strobe, the reader-visible FIFO contents equal
the single pre-packet element and the provisional run is gone. -/
theorem stream_crc_commit_discard_witness :
    (outEpStep streamCfg (outEpRun streamCfg streamCexState streamMidInputs)
        streamInvalidEnd).fifo.visible = streamCexState.fifo.visible ∧
    (outEpStep streamCfg (outEpRun streamCfg streamCexState streamMidInputs)
        streamInvalidEnd).fifo.pending = [] ∧
    (outEpStep streamCfg (outEpRun streamCfg streamCexState streamMidInputs)
        streamInvalidEnd).fifo.readData = streamCexState.fifo.readData ∧
    (outEpStep streamCfg (outEpRun streamCfg streamCexState streamMidInputs)
        streamInvalidEnd).fifo.isEmpty = streamCexState.fifo.isEmpty :=
  (stream_crc_commit_discard streamCfg streamCexState streamMidInputs streamInvalidEnd
    (by decide) rfl rfl).2.2.2.1 (by decide) (by decide)

end Luna
